import Mathlib

/-!
Verification development for the ToDoAPI note-taking backend.

The auth core is shallowly embedded from the source:
* `exports.login` in the auth controller signs `{id: user._id}` with the
  process-wide `JWT_SECRET` and a 1-hour TTL (jwt.sign with expiresIn 1h).
* `middleware/auth.middleware.js` extracts the bearer token, calls
  `jwt.verify(token, JWT_SECRET)`, resolves the user by id, and rejects
  with a 401 response otherwise.
* The server entry point validates `JWT_SECRET` at startup and exits the
  process when it is missing or blank.
* The notes controller stores each created note with the authenticated
  caller's user id and queries notes filtered by that id.

The revocation store (logout-via-blacklist) is described by the
specification but not implemented in the source; those definitions are
modelled from the spec and marked as such.
-/

namespace ToDoAPI

/-- Identifier of a principal (a user's `_id`). -/
abbrev Identity := Nat

/-- The process-wide signing secret (`process.env.JWT_SECRET`). -/
abbrev Secret := String

/-- A signed, time-bounded credential: the decoded content of a JWT as the
source produces it — subject (`id` claim), `iat`, `exp`, and the signature
computed by the signing library over the payload and the secret. -/
structure Credential where
  subject : Identity
  issuedAt : Nat
  expiresAt : Nat
  sig : Nat
deriving Repr, DecidableEq

/-- Stand-in for the signing library's MAC: an executable function of the
secret and the payload fields. Verification only ever compares a stored
signature against a recomputation, so any concrete function serves. -/
def signPayload (secret : Secret) (subject iat exp : Nat) : Nat :=
  (secret.length + 1) * 1000003 + subject * 10007 + iat * 101 + exp

/-- A presented bearer token: either a string that does not parse as a JWT,
or a well-formed credential structure. -/
inductive Token
  | malformed (raw : String)
  | wellFormed (c : Credential)
deriving Repr, DecidableEq

/-- Classes of verification failure, per the spec's error taxonomy. -/
inductive VerificationError
  | MalformedCredential
  | InvalidSignature
  | Expired
  | Revoked
deriving Repr, DecidableEq

/-- The token lifetime used by `exports.login`: `expiresIn: '1h'`, in
seconds. -/
def tokenTTL : Nat := 3600

/-- Credential issuance as performed inside `exports.login`
(src/unnamed/part_002): `jwt.sign({id: user._id}, jwtSecret,
{expiresIn: '1h'})` — subject is the user's id, `iat = now`,
`exp = now + 3600`, signature over the payload under the secret. -/
def issueToken (secret : Secret) (subject : Identity) (now : Nat) : Credential :=
  { subject := subject
    issuedAt := now
    expiresAt := now + tokenTTL
    sig := signPayload secret subject now (now + tokenTTL) }

/-- `jwt.verify(token, secret)` as called by the middleware: parse, check
the signature against the payload, then reject tokens whose `exp` is not
in the future (the library throws TokenExpiredError when the clock has
reached `exp`). On success the decoded payload's subject is returned. -/
def jwtVerify (secret : Secret) (now : Nat) (t : Token) :
    Except VerificationError Identity :=
  match t with
  | Token.malformed _ => Except.error VerificationError.MalformedCredential
  | Token.wellFormed c =>
    if c.sig = signPayload secret c.subject c.issuedAt c.expiresAt then
      if c.expiresAt ≤ now then Except.error VerificationError.Expired
      else Except.ok c.subject
    else Except.error VerificationError.InvalidSignature

/-- A user record as the middleware attaches it to the request
(`User.findById(payload.id).select('-password')`). -/
structure User where
  id : Identity
  name : String
deriving Repr, DecidableEq

/-- Outcome of the session gate: either `next()` runs with `req.user` set,
or the request is rejected with an HTTP status and message body. -/
inductive GateResult
  | proceed (user : User)
  | reject (status : Nat) (message : String)
deriving Repr, DecidableEq

/-- The auth middleware (src/middleware/auth.middleware.js): missing
Authorization header is rejected 401; otherwise the token is verified with
`jwt.verify` — any thrown verification error lands in the catch branch's
uniform 401 response — then the subject is resolved with `User.findById`,
and a missing user is rejected with the same 401 body; on success the
request proceeds with the resolved user. -/
def authMiddleware (secret : Secret) (now : Nat) (findById : Identity → Option User)
    (authHeader : Option Token) : GateResult :=
  match authHeader with
  | none => GateResult.reject 401 "Not authorized or NOt logged in system till Now"
  | some t =>
    match jwtVerify secret now t with
    | Except.error _ => GateResult.reject 401 "Unauthorized access token"
    | Except.ok subject =>
      match findById subject with
      | none => GateResult.reject 401 "Unauthorized access token"
      | some u => GateResult.proceed u

/-- Modelled from the spec: the Revocation Store's persisted state, "a
mapping from token-identity to expiry timestamp" (§6). The store itself is
described but not implemented in the source. -/
abbrev RevocationStore := List (Token × Nat)

/-- Modelled from the spec: `revoke(token, expiresAt)` — "idempotent
insert; inserting the same token twice is a no-op (not an error)" (§4.3).
Not implemented in the source. -/
def revoke (s : RevocationStore) (t : Token) (exp : Nat) : RevocationStore :=
  if s.any (fun e => decide (e.1 = t)) then s else (t, exp) :: s

/-- Modelled from the spec: `isRevoked(token) -> bool` — existence check
(§4.3). Not implemented in the source. -/
def isRevoked (s : RevocationStore) (t : Token) : Bool :=
  s.any (fun e => decide (e.1 = t))

/-- Modelled from the spec: `sweepExpired(now)` — "removes all entries
whose `expiresAt <= now`" (§4.3), i.e. keeps exactly the entries whose
expiry is still in the future. Not implemented in the source. -/
def sweepExpired (s : RevocationStore) (now : Nat) : RevocationStore :=
  s.filter (fun e => decide (now < e.2))

/-- Modelled from the spec: the Credential Verifier pipeline of §4.2,
"steps, in order (short-circuit on first failure)": 1. parse, 2.
revocation check, 3. signature check, 4. expiry check (`Expired` if
`now > expiresAt`); on success the subject identity is returned. The
revocation step is not implemented in the source's middleware; the
remaining steps mirror `jwt.verify` as the middleware calls it. -/
def specVerify (store : RevocationStore) (secret : Secret) (now : Nat) (t : Token) :
    Except VerificationError Identity :=
  match t with
  | Token.malformed _ => Except.error VerificationError.MalformedCredential
  | Token.wellFormed c =>
    if isRevoked store (Token.wellFormed c) then Except.error VerificationError.Revoked
    else if c.sig = signPayload secret c.subject c.issuedAt c.expiresAt then
      if c.expiresAt < now then Except.error VerificationError.Expired
      else Except.ok c.subject
    else Except.error VerificationError.InvalidSignature

/-- The session gate of the source's middleware extended with the
spec-modelled revocation check: identical to `authMiddleware` except that
verification goes through the full `specVerify` pipeline, every
verification failure being surfaced through the catch branch's uniform
401 response (the spec requires all failure classes to surface as "a
uniform unauthenticated response"). -/
def specGate (store : RevocationStore) (secret : Secret) (now : Nat)
    (findById : Identity → Option User) (authHeader : Option Token) : GateResult :=
  match authHeader with
  | none => GateResult.reject 401 "Not authorized or NOt logged in system till Now"
  | some t =>
    match specVerify store secret now t with
    | Except.error _ => GateResult.reject 401 "Unauthorized access token"
    | Except.ok subject =>
      match findById subject with
      | none => GateResult.reject 401 "Unauthorized access token"
      | some u => GateResult.proceed u

/-- Result of the startup validation in the server entry point. -/
inductive StartupResult
  | exit (code : Nat)
  | serving
deriving Repr, DecidableEq

/-- The source's blank-secret test `!secret || secret.trim() === ''`: the
secret is missing (represented as the empty string), empty, or all
whitespace — exactly when it trims to the empty string. -/
def isBlankSecret (s : String) : Bool :=
  s.data.all (fun c => c.isWhitespace)

/-- The startup validation of the server entry point (src/unnamed/part_000
lines 13-18): when JWT_SECRET is missing or trims to the empty string the
process exits with code 1 before any route is registered; otherwise the
server proceeds to serve traffic. -/
def startupCheck (jwtSecret : String) : StartupResult :=
  if isBlankSecret jwtSecret then StartupResult.exit 1 else StartupResult.serving

/-- A stored user record (the users model): id, email and the bcrypt hash
of the password. -/
structure StoredUser where
  id : Identity
  email : String
  passwordHash : String
deriving Repr, DecidableEq

/-- Stand-in for `bcrypt.hash`: an executable tagging function; the auth
controller only ever feeds its output to `bcrypt.compare`. -/
def bcryptHash (password : String) : String := "bcrypt$" ++ password

/-- Stand-in for `bcrypt.compare`: succeeds exactly when the stored hash
is the hash of the presented password. -/
def bcryptCompare (password hash : String) : Bool :=
  decide (hash = bcryptHash password)

/-- Observable outcome of `exports.login`: a 400 response, the 500
configuration-error response, or a 200 response carrying the signed
token. -/
inductive LoginResult
  | badRequest (message : String)
  | configError (message : String)
  | ok (message : String) (token : Credential)
deriving Repr, DecidableEq

/-- The configuration-error body `exports.login` answers when JWT_SECRET
is missing or blank at call time. -/
def loginConfigErrorMsg : String :=
  "Server configuration error: JWT_SECRET is missing. Please add JWT_SECRET to your .env file"

/-- `exports.login` (src/unnamed/part_002 lines 37-77): missing email or
password answers 400 "missing required field"; an unknown email answers
400 "Invalid email or password"; a wrong password answers 400 "Either
email or Password wrong"; then JWT_SECRET is re-checked — when missing or
blank the call answers the 500 configuration-error response — and finally
a token is signed for the user's id with a one-hour expiry. A missing
field or variable is represented as the empty string (falsy, like
undefined, in the source's checks). -/
def login (jwtSecret : String) (findByEmail : String → Option StoredUser)
    (now : Nat) (email password : String) : LoginResult :=
  if email = "" ∨ password = "" then LoginResult.badRequest "missing required field"
  else
    match findByEmail email with
    | none => LoginResult.badRequest "Invalid email or password"
    | some user =>
      if bcryptCompare password user.passwordHash then
        if isBlankSecret jwtSecret then LoginResult.configError loginConfigErrorMsg
        else LoginResult.ok "User successfully logged in" (issueToken jwtSecret user.id now)
      else LoginResult.badRequest "Either email or Password wrong"

/-- A stored note (the notes model): owner id, title, content. -/
structure Note where
  userId : Identity
  title : String
  content : String
deriving Repr, DecidableEq

/-- The persisted notes collection. -/
abbrev NotesStore := List Note

/-- `exports.createNote` (src/controllers/notes.controllers.js): an empty
title or content answers 400 and writes nothing; otherwise a note is
created with `userId: req.user._id` and a 201 is answered. The result is
the new store paired with the HTTP status. -/
def createNote (store : NotesStore) (callerId : Identity) (title content : String) :
    NotesStore × Nat :=
  if title = "" ∨ content = "" then (store, 400)
  else ({ userId := callerId, title := title, content := content } :: store, 201)

/-- `exports.getNotes` (src/controllers/notes.controllers.js):
`Notes.find({userId: req.user._id})` — the notes owned by the
authenticated caller. -/
def getNotes (store : NotesStore) (callerId : Identity) : List Note :=
  store.filter (fun n => decide (n.userId = callerId))

end ToDoAPI

namespace ToDoAPI

/-- C1: Round-trip of issuance and verification — for every principal
identity `p`, verifying a token freshly issued for `p` succeeds and
returns `p`, provided the current time is before the credential's
`expiresAt`. -/
theorem verify_issue_roundtrip (secret : Secret) (p : Identity) (t0 now : Nat)
    (h : now < (issueToken secret p t0).expiresAt) :
    jwtVerify secret now (Token.wellFormed (issueToken secret p t0)) = Except.ok p := by
  have hx : ¬ (issueToken secret p t0).expiresAt ≤ now := Nat.not_le.mpr h
  simp only [issueToken, tokenTTL] at hx
  simp [jwtVerify, issueToken, tokenTTL, hx]

/-- Witness for C1 at a concrete input: a token issued for subject 7 at
time 0 verifies at time 1800 (before its one-hour expiry) and returns 7. -/
theorem verify_issue_roundtrip_witness :
    1800 < (issueToken "s3cret" 7 0).expiresAt ∧
      jwtVerify "s3cret" 1800 (Token.wellFormed (issueToken "s3cret" 7 0)) =
        Except.ok 7 :=
  ⟨by decide, verify_issue_roundtrip "s3cret" 7 0 1800 (by decide)⟩

/-- C2: In the verifier pipeline the revocation-store lookup precedes the
signature and expiry checks — for every well-formed token present in the
revocation store, verification fails with `Revoked`, with no assumption on
the token's signature or expiry; in particular a revoked token is rejected
with `Revoked` even when its signature is valid and it is not yet
expired. -/
theorem revoked_token_rejected_first (store : RevocationStore) (secret : Secret)
    (now : Nat) (c : Credential)
    (hrev : isRevoked store (Token.wellFormed c) = true) :
    specVerify store secret now (Token.wellFormed c) =
      Except.error VerificationError.Revoked := by
  simp [specVerify, hrev]

/-- Witness for C2: a concrete store holding a freshly issued token whose
signature is valid and whose expiry is still in the future; verification
nevertheless fails with `Revoked`. -/
theorem revoked_token_rejected_first_witness :
    isRevoked [(Token.wellFormed (issueToken "k" 4 0), tokenTTL)]
        (Token.wellFormed (issueToken "k" 4 0)) = true ∧
      specVerify [(Token.wellFormed (issueToken "k" 4 0), tokenTTL)] "k" 100
          (Token.wellFormed (issueToken "k" 4 0)) =
        Except.error VerificationError.Revoked :=
  ⟨by decide, revoked_token_rejected_first _ "k" 100 _ (by decide)⟩

/-- C3: Any two verification failures — whatever their classes among
`MalformedCredential`, `InvalidSignature`, `Expired`, `Revoked` — surface
to the unauthenticated caller as the identical response, status 401 with
body "Unauthorized access token", so the caller cannot distinguish which
failure class occurred. -/
theorem failure_responses_uniform (store : RevocationStore) (secret : Secret)
    (now : Nat) (findById : Identity → Option User) (t1 t2 : Token)
    (e1 e2 : VerificationError)
    (h1 : specVerify store secret now t1 = Except.error e1)
    (h2 : specVerify store secret now t2 = Except.error e2) :
    specGate store secret now findById (some t1) =
        specGate store secret now findById (some t2) ∧
      specGate store secret now findById (some t1) =
        GateResult.reject 401 "Unauthorized access token" := by
  simp [specGate, h1, h2]

/-- Witness for C3: a malformed token and an expired (validly signed)
token produce distinct failure classes yet the identical 401 response. -/
theorem failure_responses_uniform_witness :
    specVerify [] "k" 9999 (Token.malformed "zzz") =
        Except.error VerificationError.MalformedCredential ∧
      specVerify [] "k" 9999 (Token.wellFormed (issueToken "k" 4 0)) =
        Except.error VerificationError.Expired ∧
      specGate [] "k" 9999 (fun _ => none) (some (Token.malformed "zzz")) =
          specGate [] "k" 9999 (fun _ => none)
            (some (Token.wellFormed (issueToken "k" 4 0))) ∧
        specGate [] "k" 9999 (fun _ => none) (some (Token.malformed "zzz")) =
          GateResult.reject 401 "Unauthorized access token" :=
  ⟨rfl, rfl,
    failure_responses_uniform [] "k" 9999 (fun _ => none)
      (Token.malformed "zzz") (Token.wellFormed (issueToken "k" 4 0))
      VerificationError.MalformedCredential VerificationError.Expired
      rfl rfl⟩

/-- C7: `revoke` is idempotent — revoking the same token with the same
expiry twice yields exactly the state of revoking it once (the second call
is a no-op, and `revoke` is total, so it is not an error). -/
theorem revoke_idempotent (s : RevocationStore) (t : Token) (exp : Nat) :
    revoke (revoke s t exp) t exp = revoke s t exp := by
  unfold revoke
  cases h : s.any (fun e => decide (e.1 = t)) <;> simp [h]

/-- C8: Revocation lifecycle — after `revoke s t exp` the token is
revoked; `sweepExpired` keeps exactly the entries whose expiry is still in
the future (so it removes exactly those with `expiresAt ≤ now` and never
removes an unexpired entry); and once `now ≥ exp`, sweeping the store in
which `t` was freshly revoked leaves `t` no longer revoked. -/
theorem revocation_lifecycle (s : RevocationStore) (t : Token) (exp now : Nat)
    (hfresh : ∀ e ∈ s, e.1 ≠ t) :
    isRevoked (revoke s t exp) t = true ∧
      (∀ s' : RevocationStore, ∀ e, e ∈ sweepExpired s' now ↔ e ∈ s' ∧ now < e.2) ∧
      (exp ≤ now → isRevoked (sweepExpired (revoke s t exp) now) t = false) := by
  have hany : s.any (fun e => decide (e.1 = t)) = false := by
    rw [List.any_eq_false]
    intro e he
    simp [hfresh e he]
  have hins : revoke s t exp = (t, exp) :: s := by
    simp [revoke, hany]
  refine ⟨?_, ?_, ?_⟩
  · rw [hins]
    simp [isRevoked]
  · intro s' e
    simp [sweepExpired, List.mem_filter]
  · intro hle
    rw [hins]
    rw [isRevoked, List.any_eq_false]
    intro e he
    rw [sweepExpired, List.mem_filter] at he
    obtain ⟨hmem, hlt⟩ := he
    rcases List.mem_cons.mp hmem with h1 | h2
    · subst h1
      simp only [decide_eq_true_eq] at hlt
      omega
    · simp [hfresh e h2]

/-- Witness for C8: token revoked at expiry 5 into an empty store; it is
revoked before the sweep, and a sweep at time 5 evicts it. -/
theorem revocation_lifecycle_witness :
    (∀ e ∈ ([] : RevocationStore), e.1 ≠ Token.malformed "w") ∧
      (isRevoked (revoke [] (Token.malformed "w") 5) (Token.malformed "w") = true ∧
        (∀ s' : RevocationStore, ∀ e, e ∈ sweepExpired s' 5 ↔ e ∈ s' ∧ 5 < e.2) ∧
        (5 ≤ 5 →
          isRevoked (sweepExpired (revoke [] (Token.malformed "w") 5) 5)
            (Token.malformed "w") = false)) :=
  ⟨by simp, revocation_lifecycle [] (Token.malformed "w") 5 5 (by simp)⟩

/-- C4: A well-formed token whose `expiresAt` lies in the past at
presentation time fails verification with `Expired` — even when its
signature is valid and it was never revoked — in the source's `jwt.verify`
path, in the spec's full pipeline, and the middleware rejects the request
with 401. -/
theorem expired_token_rejected (store : RevocationStore) (secret : Secret) (now : Nat)
    (findById : Identity → Option User) (c : Credential)
    (hsig : c.sig = signPayload secret c.subject c.issuedAt c.expiresAt)
    (hexp : c.expiresAt < now)
    (hrev : isRevoked store (Token.wellFormed c) = false) :
    jwtVerify secret now (Token.wellFormed c) = Except.error VerificationError.Expired ∧
      specVerify store secret now (Token.wellFormed c) =
        Except.error VerificationError.Expired ∧
      authMiddleware secret now findById (some (Token.wellFormed c)) =
        GateResult.reject 401 "Unauthorized access token" := by
  have h1 : jwtVerify secret now (Token.wellFormed c) =
      Except.error VerificationError.Expired := by
    simp [jwtVerify, hsig, Nat.le_of_lt hexp]
  refine ⟨h1, ?_, ?_⟩
  · simp [specVerify, hrev, hsig, hexp]
  · simp [authMiddleware, h1]

/-- Witness for C4: a validly signed, never-revoked token issued at time 0
presented at time 9999 (past its one-hour expiry) is rejected as
`Expired`. -/
theorem expired_token_rejected_witness :
    (issueToken "k" 4 0).sig =
        signPayload "k" (issueToken "k" 4 0).subject (issueToken "k" 4 0).issuedAt
          (issueToken "k" 4 0).expiresAt ∧
      (issueToken "k" 4 0).expiresAt < 9999 ∧
      isRevoked [] (Token.wellFormed (issueToken "k" 4 0)) = false ∧
      (jwtVerify "k" 9999 (Token.wellFormed (issueToken "k" 4 0)) =
          Except.error VerificationError.Expired ∧
        specVerify [] "k" 9999 (Token.wellFormed (issueToken "k" 4 0)) =
          Except.error VerificationError.Expired ∧
        authMiddleware "k" 9999 (fun _ => none)
            (some (Token.wellFormed (issueToken "k" 4 0))) =
          GateResult.reject 401 "Unauthorized access token") :=
  ⟨rfl, by decide, by decide,
    expired_token_rejected [] "k" 9999 (fun _ => none) (issueToken "k" 4 0)
      rfl (by decide) (by decide)⟩

/-- C5: A well-formed token whose payload was altered after signing, so
that its stored signature no longer matches the payload under the signing
secret, fails verification with `InvalidSignature`, and the middleware
rejects the request with 401. -/
theorem tampered_token_rejected (secret : Secret) (now : Nat)
    (findById : Identity → Option User) (c : Credential)
    (hsig : c.sig ≠ signPayload secret c.subject c.issuedAt c.expiresAt) :
    jwtVerify secret now (Token.wellFormed c) =
        Except.error VerificationError.InvalidSignature ∧
      authMiddleware secret now findById (some (Token.wellFormed c)) =
        GateResult.reject 401 "Unauthorized access token" := by
  have h1 : jwtVerify secret now (Token.wellFormed c) =
      Except.error VerificationError.InvalidSignature := by
    simp [jwtVerify, hsig]
  exact ⟨h1, by simp [authMiddleware, h1]⟩

/-- Witness for C5: a token issued for subject 4 whose subject claim is
altered to 5 post-signing (signature kept) no longer matches and is
rejected as `InvalidSignature`. -/
theorem tampered_token_rejected_witness :
    ({ issueToken "k" 4 0 with subject := 5 } : Credential).sig ≠
        signPayload "k" 5 ({ issueToken "k" 4 0 with subject := 5 } : Credential).issuedAt
          ({ issueToken "k" 4 0 with subject := 5 } : Credential).expiresAt ∧
      (jwtVerify "k" 10 (Token.wellFormed { issueToken "k" 4 0 with subject := 5 }) =
          Except.error VerificationError.InvalidSignature ∧
        authMiddleware "k" 10 (fun _ => none)
            (some (Token.wellFormed { issueToken "k" 4 0 with subject := 5 })) =
          GateResult.reject 401 "Unauthorized access token") :=
  ⟨by decide,
    tampered_token_rejected "k" 10 (fun _ => none)
      { issueToken "k" 4 0 with subject := 5 } (by decide)⟩

/-- C6 counterexample: the source's `exports.login` re-checks JWT_SECRET
on every call — with a blank secret, a login presenting valid credentials
is answered by the per-call 500 configuration-error response, refuting
"the secret is not re-checked per call". -/
theorem login_rechecks_secret_counterexample :
    login "" (fun e => if e = "a@b.c" then some ⟨1, "a@b.c", bcryptHash "pw"⟩ else none)
        0 "a@b.c" "pw" =
      LoginResult.configError loginConfigErrorMsg := by
  decide

/-- C6 (amended): a missing or blank signing secret makes the process exit
at startup with code 1, so it never serves traffic; a present, non-blank
secret lets startup serve and makes every login call free of
`ConfigurationError`; however — amending the claim — the secret IS
additionally re-checked on every login call, which answers the
configuration-error response whenever the secret is blank and the
presented credentials are otherwise valid. -/
theorem secret_checked_at_startup_and_per_call (secret : String)
    (findByEmail : String → Option StoredUser) (now : Nat) (email password : String) :
    (isBlankSecret secret = true → startupCheck secret = StartupResult.exit 1) ∧
      (isBlankSecret secret = false → startupCheck secret = StartupResult.serving) ∧
      (isBlankSecret secret = false →
        ∀ msg, login secret findByEmail now email password ≠ LoginResult.configError msg) ∧
      (isBlankSecret secret = true → email ≠ "" → password ≠ "" →
        ∀ u, findByEmail email = some u → bcryptCompare password u.passwordHash = true →
          login secret findByEmail now email password =
            LoginResult.configError loginConfigErrorMsg) := by
  refine ⟨?_, ?_, ?_, ?_⟩
  · intro h
    simp [startupCheck, h]
  · intro h
    simp [startupCheck, h]
  · intro h msg
    by_cases he : email = "" ∨ password = ""
    · simp [login, he]
    · simp only [login, if_neg he]
      cases hf : findByEmail email with
      | none => simp
      | some u =>
        by_cases hb : bcryptCompare password u.passwordHash = true
        · simp [hb, h]
        · simp [hb]
  · intro h he hp u hu hb
    simp [login, he, hp, hu, hb, h]

/-- Witness for C6's amended theorem: with a blank secret startup exits
and a valid login is answered by the configuration error; with secret "k"
startup serves and a login never answers a configuration error. -/
theorem secret_checked_at_startup_and_per_call_witness :
    startupCheck "" = StartupResult.exit 1 ∧
      startupCheck "k" = StartupResult.serving ∧
      (∀ msg, login "k" (fun _ => none) 0 "a@b.c" "pw" ≠ LoginResult.configError msg) ∧
      login "" (fun e => if e = "a@b.c" then some ⟨1, "a@b.c", bcryptHash "pw"⟩ else none)
          0 "a@b.c" "pw" =
        LoginResult.configError loginConfigErrorMsg :=
  ⟨(secret_checked_at_startup_and_per_call "" (fun _ => none) 0 "a@b.c" "pw").1
      (by decide),
    (secret_checked_at_startup_and_per_call "k" (fun _ => none) 0 "a@b.c" "pw").2.1
      (by decide),
    (secret_checked_at_startup_and_per_call "k" (fun _ => none) 0 "a@b.c" "pw").2.2.1
      (by decide),
    (secret_checked_at_startup_and_per_call ""
          (fun e => if e = "a@b.c" then some ⟨1, "a@b.c", bcryptHash "pw"⟩ else none)
          0 "a@b.c" "pw").2.2.2
      (by decide) (by decide) (by decide) ⟨1, "a@b.c", bcryptHash "pw"⟩ (by decide)
      (by decide)⟩

/-- C9: Note storage is scoped to the authenticated caller — a note is in
the store produced by `createNote` iff it was already there or it is the
newly created note carrying the caller's own id (created only when title
and content are non-empty), and `getNotes` returns a note iff it is in
the store and owned by the caller. -/
theorem notes_scoped_to_caller (store : NotesStore) (callerId : Identity)
    (title content : String) :
    (∀ n, n ∈ (createNote store callerId title content).1 ↔
        n ∈ store ∨ (¬(title = "" ∨ content = "") ∧
          n = { userId := callerId, title := title, content := content })) ∧
      (∀ n, n ∈ getNotes store callerId ↔ n ∈ store ∧ n.userId = callerId) := by
  constructor
  · intro n
    by_cases h : title = "" ∨ content = ""
    · simp [createNote, h]
    · simp [createNote, h, List.mem_cons, or_comm]
  · intro n
    simp [getNotes, List.mem_filter]

/-- C10: A token with a valid signature and unexpired lifetime whose
subject does not resolve to an existing user is rejected by the middleware
with exactly the same 401 response as a token failing verification (e.g.
forged), and the gate never proceeds into protected logic. -/
theorem unresolved_subject_rejected (secret : Secret) (now : Nat)
    (findById : Identity → Option User) (c : Credential) (t' : Token)
    (e : VerificationError)
    (hsig : c.sig = signPayload secret c.subject c.issuedAt c.expiresAt)
    (hexp : now < c.expiresAt)
    (hfind : findById c.subject = none)
    (hforged : jwtVerify secret now t' = Except.error e) :
    authMiddleware secret now findById (some (Token.wellFormed c)) =
        GateResult.reject 401 "Unauthorized access token" ∧
      authMiddleware secret now findById (some t') =
        GateResult.reject 401 "Unauthorized access token" := by
  constructor
  · have hok : jwtVerify secret now (Token.wellFormed c) = Except.ok c.subject := by
      simp [jwtVerify, hsig, Nat.not_le.mpr hexp]
    simp [authMiddleware, hok, hfind]
  · simp [authMiddleware, hforged]

/-- Witness for C10: a fresh, validly signed, unexpired token for subject
4 with no matching user record is rejected with the same 401 body as a
malformed token. -/
theorem unresolved_subject_rejected_witness :
    (issueToken "k" 4 0).sig =
        signPayload "k" (issueToken "k" 4 0).subject (issueToken "k" 4 0).issuedAt
          (issueToken "k" 4 0).expiresAt ∧
      10 < (issueToken "k" 4 0).expiresAt ∧
      (fun (_ : Identity) => (none : Option User)) (issueToken "k" 4 0).subject = none ∧
      (authMiddleware "k" 10 (fun _ => none)
            (some (Token.wellFormed (issueToken "k" 4 0))) =
          GateResult.reject 401 "Unauthorized access token" ∧
        authMiddleware "k" 10 (fun _ => none) (some (Token.malformed "zzz")) =
          GateResult.reject 401 "Unauthorized access token") :=
  ⟨rfl, by decide, rfl,
    unresolved_subject_rejected "k" 10 (fun _ => none) (issueToken "k" 4 0)
      (Token.malformed "zzz") VerificationError.MalformedCredential
      rfl (by decide) rfl rfl⟩

end ToDoAPI
